import Mathlib

/-!
Shallow embedding of the MQTT telemetry-ingestion service (src/mqtt/client.py,
src/database.py, src/api/routers/data.py).

Python dynamic values are modelled by the inductive `Value`; dicts by
association lists; `datetime` values by integer ticks.  The Python standard
library functions `datetime.fromisoformat`, `datetime.utcnow().isoformat()`,
`json.loads` and `json.dumps`, and the per-message external HTTP lookup
`get_paciente_id`, are external to the repository and are taken as parameters
of the environment (`Env`); the repository's own functions are translated
directly.
-/

/-- A Python runtime value, restricted to the shapes flowing through this
program: `None`, strings, ints, floats (modelled as rationals), booleans and
`datetime` objects (modelled as integer ticks). -/
inductive Value where
  | vNone : Value
  | vStr : String → Value
  | vInt : Int → Value
  | vRat : Rat → Value
  | vBool : Bool → Value
  | vDT : Int → Value
deriving DecidableEq, Repr

/-- Is this value a Python `datetime` object? -/
def Value.isDatetime : Value → Bool
  | .vDT _ => true
  | _ => false

/-- A Python dict with string keys. -/
abbrev Dict : Type := List (String × Value)

/-- `d.get(k)` returning `none` on a missing key (also models `k in d` via
`isSome`). -/
def Dict.find? : Dict → String → Option Value
  | [], _ => none
  | (k', v) :: d, k => if k' = k then some v else Dict.find? d k

/-- `k in d`. -/
def Dict.contains (d : Dict) (k : String) : Bool :=
  (d.find? k).isSome

/-- `d.get(k, dflt)`. -/
def Dict.getD (d : Dict) (k : String) (dflt : Value) : Value :=
  (d.find? k).getD dflt

/-- `d[k] = v` (also the override step of a later key in `\x7b**d, k: v\x7d`):
replaces the existing binding of `k` in place, or appends a new one. -/
def Dict.insert : Dict → String → Value → Dict
  | [], k, v => [(k, v)]
  | (k', v') :: d, k, v =>
      if k' = k then (k, v) :: d else (k', v') :: Dict.insert d k v

/-- Result of Python `json.loads`: a JSON object (a dict) or some other JSON
value (array, number, string, ...), kept abstract since only objects are
unpacked by the code. -/
inductive Json where
  | obj : List (String × Value) → Json
  | nonObj : String → Json
deriving DecidableEq

/-- Environment of external (standard-library / network) facilities used by
the ingestion path, all outside this repository:
`parseIso` is `datetime.fromisoformat` (`none` = it raises `ValueError`);
`now` is `datetime.utcnow()` at ingestion time and `isoOfNow` its
`.isoformat()` string; `jsonParse` is `json.loads` (`none` =
`json.JSONDecodeError`); `jsonDumps` is `json.dumps`; `identificador` is the
result of the external HTTP lookup `get_paciente_id` (`none` = lookup failed
or the response had no identifier). -/
structure Env where
  parseIso : String → Option Int
  now : Int
  isoOfNow : String
  jsonParse : String → Option Json
  jsonDumps : Json → String
  identificador : Option String

/-- Python truthiness of the identifier as used in
`if not identificador:` — `None` and the empty string are falsy. -/
def truthyId : Option String → Bool
  | none => false
  | some s => s ≠ ""

/-- The identifier as the Python value placed into the raw-data dict. -/
def idValue : Option String → Value
  | none => .vNone
  | some s => .vStr s

/-- src/mqtt/client.py `parse_timestamp`: if a `timestamp` key is present and
its value is a string, replace it by `datetime.fromisoformat` of it, falling
back to `datetime.utcnow()` when parsing raises; if the key is present with a
non-string value, the `isinstance` guard fails and the value is left
untouched; if the key is absent, `datetime.utcnow()` is inserted.  Total (the
only raising call, `fromisoformat`, is inside `except (ValueError,
TypeError)`). -/
def parse_timestamp (parseIso : String → Option Int) (now : Int)
    (payload : Dict) : Dict :=
  match payload.find? "timestamp" with
  | some (.vStr s) =>
      match parseIso s with
      | some t => payload.insert "timestamp" (.vDT t)
      | none => payload.insert "timestamp" (.vDT now)
  | some _ => payload
  | none => payload.insert "timestamp" (.vDT now)

/-- One stored row of the `raw_mqtt_data` table (src/database.py
`DBRawMQTTData`); columns keep the dynamic values handed to the ORM. -/
structure RawRow where
  topic : Value
  payload : Value
  timestamp : Value
deriving DecidableEq, Repr

/-- One stored row of the `mediciones_data` table (src/database.py
`DBMedicionesData`), as written by `save_mediciones_data`; columns keep the
dynamic values handed to the ORM. -/
structure MedRow where
  paciente_identificador : Value
  sensor : Value
  heart_rate : Value
  spo2 : Value
  temperature : Value
  finger_detected : Value
  timestamp : Value
deriving DecidableEq, Repr

/-- The relational store as touched by the ingestion path: the
`mediciones_data` and `raw_mqtt_data` tables, rows in insertion order. -/
structure Store where
  mediciones : List MedRow
  raw : List RawRow
deriving DecidableEq, Repr

/-- src/database.py `save_raw_mqtt_data`: reads `data['topic']`,
`data['payload']`, `data['timestamp']`; converts a string timestamp with
`fromisoformat`; adds and commits one `DBRawMQTTData` row.  Every exception
(missing key, unparsable timestamp, DB error) is caught inside the function
and swallowed after a rollback, so the function never raises: it either
appends one row or leaves the store unchanged.  (The `isinstance(payload_str,
dict)` re-serialisation branch is dead on the paths of this model: on_message
always passes the payload as a string.) -/
def save_raw_mqtt_data (env : Env) (st : Store) (data : Dict) : Store :=
  match data.find? "topic", data.find? "payload", data.find? "timestamp" with
  | some t, some p, some tsv =>
      match tsv with
      | .vStr s =>
          match env.parseIso s with
          | some tt => { st with raw := st.raw ++ [⟨t, p, .vDT tt⟩] }
          | none => st
      | _ => { st with raw := st.raw ++ [⟨t, p, tsv⟩] }
  | _, _, _ => st

/-- src/database.py `save_mediciones_data`: raises `ValueError` when
`paciente_identificador` is absent; raises `KeyError` when `timestamp` is
absent; raises `ValueError` when the timestamp string does not parse — in all
those cases the store is unchanged (rollback).  Otherwise it builds the row,
`db.add`s it, `db.commit()`s it — and then executes the unconditional
`raise ValueError("Lo logro senior")` sitting between the commit and the
(unreachable) `return db_data`: the row stays committed and the caller still
sees an exception.  Returns the post-state and the call's outcome. -/
def save_mediciones_data (env : Env) (st : Store) (data : Dict) :
    Store × Except String Unit :=
  if ¬ data.contains "paciente_identificador" then
    (st, .error "Se requiere paciente_identificador para guardar mediciones")
  else
    match data.find? "timestamp" with
    | none => (st, .error "KeyError: timestamp")
    | some tsv =>
        match (match tsv with
               | .vStr s => (env.parseIso s).map (fun t => .vDT t)
               | v => some v : Option Value) with
        | none => (st, .error "ValueError: Invalid isoformat string")
        | some ts =>
            let row : MedRow :=
              { paciente_identificador := data.getD "paciente_identificador" .vNone
                sensor := data.getD "sensor" .vNone
                heart_rate := data.getD "heart_rate" .vNone
                spo2 := data.getD "spo2" .vNone
                temperature := data.getD "temperature" .vNone
                finger_detected := data.getD "finger_detected" (.vBool false)
                timestamp := ts }
            ({ st with mediciones := st.mediciones ++ [row] },
             .error "Lo logro senior")

/-- src/mqtt/client.py `on_message` on a UTF-8-decodable payload: try
`json.loads`; fetch the external identifier; always call
`save_raw_mqtt_data` with the (re-serialised when JSON) payload and the
current time; then, for a JSON payload on topic `esp32/mediciones` with a
truthy identifier, build `datos_completos = {**payload,
"paciente_identificador": identificador, "timestamp": utcnow().isoformat()}`
and call `save_mediciones_data`, whose exception (it always raises) is caught
by the inner `except` and only printed.  Unpacking `{**payload, ...}` of a
non-dict JSON value raises `TypeError`, also caught by the inner `except`. -/
def on_message (env : Env) (st : Store) (topic : String)
    (rawPayload : String) : Store :=
  match env.jsonParse rawPayload with
  | some j =>
      let raw_data : Dict :=
        [("topic", .vStr topic), ("paciente_id", idValue env.identificador),
         ("payload", .vStr (env.jsonDumps j)),
         ("timestamp", .vStr env.isoOfNow)]
      let st1 := save_raw_mqtt_data env st raw_data
      if topic = "esp32/mediciones" then
        if truthyId env.identificador then
          match j with
          | .obj fields =>
              let datos_completos : Dict :=
                (Dict.insert
                  (Dict.insert fields "paciente_identificador"
                    (idValue env.identificador))
                  "timestamp" (.vStr env.isoOfNow))
              (save_mediciones_data env st1 datos_completos).1
          | .nonObj _ => st1
        else st1
      else st1
  | none =>
      let raw_data : Dict :=
        [("topic", .vStr topic), ("paciente_id", idValue env.identificador),
         ("payload", .vStr rawPayload), ("timestamp", .vStr env.isoOfNow)]
      save_raw_mqtt_data env st raw_data

/-! ## Query layer (src/api/routers/data.py) -/

/-- One stored row of the `pacientes` table (src/database.py `DBPaciente`),
with the columns the query layer reads. -/
structure Paciente where
  id : Nat
  identificador : String
  nombre : String
deriving DecidableEq, Repr

/-- One stored row of the `mediciones_data` table as the query layer reads it
back, with the static column types of the schema (`Integer`, `String`,
`Float`, `Boolean`, `DateTime`; every data column is nullable). -/
structure Medicion where
  id : Nat
  paciente_identificador : Option String
  sensor : Option String
  heart_rate : Option Int
  spo2 : Option Int
  temperature : Option Rat
  finger_detected : Option Bool
  timestamp : Int
deriving DecidableEq, Repr

/-- The store as seen by the measurement read endpoints. -/
structure QueryDB where
  pacientes : List Paciente
  mediciones : List Medicion
deriving DecidableEq, Repr

/-- The patient reached through the `DBMedicionesData.paciente` relationship:
the `pacientes` row whose `identificador` equals the measurement's
`paciente_identificador` (also the join condition of
`query(DBMedicionesData).join(DBPaciente)`). -/
def findPaciente (ps : List Paciente) (ident : Option String) :
    Option Paciente :=
  match ident with
  | some s => List.find? (fun p => p.identificador = s) ps
  | none => none

/-- `column ILIKE '%pat%'`: case-insensitive substring match. -/
def ilikeSub (hay pat : String) : Bool :=
  pat.isEmpty || (List.length ((hay.toLower).splitOn (pat.toLower)) ≥ 2)

/-- The optional query parameters of `listar_mediciones`. -/
structure MedFilters where
  paciente_identificador : Option String
  sensor : Option String
  start_date : Option Int
  end_date : Option Int
  finger_detected : Option Bool
deriving DecidableEq, Repr

/-- The `WHERE` clause built by `listar_mediciones`: the inner join against
`pacientes` plus each filter, applied only when the parameter is truthy
(`if paciente_identificador:` / `if sensor:` skip `None` and `""`;
dates are always-truthy objects when present;
`if finger_detected is not None:` skips only `None`).  An `ILIKE` on a NULL
column is not satisfied. -/
def medMatches (ps : List Paciente) (f : MedFilters) (m : Medicion) : Bool :=
  (findPaciente ps m.paciente_identificador).isSome &&
  (match f.paciente_identificador with
   | some s => if s ≠ "" then m.paciente_identificador == some s else true
   | none => true) &&
  (match f.sensor with
   | some s =>
       if s ≠ "" then
         match m.sensor with
         | some ms => ilikeSub ms s
         | none => false
       else true
   | none => true) &&
  (match f.start_date with
   | some d => decide (d ≤ m.timestamp)
   | none => true) &&
  (match f.end_date with
   | some d => decide (m.timestamp ≤ d)
   | none => true) &&
  (match f.finger_detected with
   | some b => m.finger_detected == some b
   | none => true)

/-- `ORDER BY timestamp DESC`: an element goes before another when its
timestamp is at least as large. -/
def tsDesc (a b : Medicion) : Prop := b.timestamp ≤ a.timestamp

instance : DecidableRel tsDesc := fun a b =>
  inferInstanceAs (Decidable (b.timestamp ≤ a.timestamp))

/-- The filtered, descending-ordered row sequence of `listar_mediciones`
before `OFFSET`/`LIMIT` are applied. -/
def medQueryRows (db : QueryDB) (f : MedFilters) : List Medicion :=
  List.insertionSort tsDesc (List.filter (medMatches db.pacientes f) db.mediciones)

/-- Read-side validation applied by `listar_mediciones` (data.py line 250):
`medicion.heart_rate if medicion.heart_rate and 30 <= medicion.heart_rate <=
250 else None` — the leading truthiness test also rejects 0. -/
def validated_hr (hr : Option Int) : Option Int :=
  match hr with
  | some h => if h ≠ 0 ∧ 30 ≤ h ∧ h ≤ 250 then some h else none
  | none => none

/-- Read-side validation of `spo2` (range 70..100, truthiness first). -/
def validated_spo2 (s : Option Int) : Option Int :=
  match s with
  | some v => if v ≠ 0 ∧ 70 ≤ v ∧ v ≤ 100 then some v else none
  | none => none

/-- Read-side validation of `temperature` (range 30..45, truthiness first). -/
def validated_temp (t : Option Rat) : Option Rat :=
  match t with
  | some v => if v ≠ 0 ∧ 30 ≤ v ∧ v ≤ 45 then some v else none
  | none => none

/-- One element of the response list of `listar_mediciones`. -/
structure MedOut where
  id : Nat
  paciente_identificador : Option String
  paciente_id : Option Nat
  sensor : Option String
  heart_rate : Option Int
  spo2 : Option Int
  temperature : Option Rat
  finger_detected : Option Bool
  timestamp : Int
deriving DecidableEq, Repr

/-- The per-row response dict built by `listar_mediciones` (data.py lines
248..266): validated vitals, pass-through of the other columns, and
`medicion.paciente.id if medicion.paciente else None`. -/
def projectMed (ps : List Paciente) (m : Medicion) : MedOut :=
  { id := m.id
    paciente_identificador := m.paciente_identificador
    paciente_id := (findPaciente ps m.paciente_identificador).map (fun p => p.id)
    sensor := m.sensor
    heart_rate := validated_hr m.heart_rate
    spo2 := validated_spo2 m.spo2
    temperature := validated_temp m.temperature
    finger_detected := m.finger_detected
    timestamp := m.timestamp }

/-- src/api/routers/data.py `listar_mediciones`: filter, order by timestamp
descending, `OFFSET skip LIMIT limit`, then build the response rows. -/
def listar_mediciones (db : QueryDB) (skip limit : Nat) (f : MedFilters) :
    List MedOut :=
  List.map (projectMed db.pacientes)
    (List.take limit (List.drop skip (medQueryRows db f)))

/-! ## Reads that reference the nonexistent `paciente_id` column -/

/-- The attribute names defined by the `DBMedicionesData` declarative class
(src/database.py lines 42..56): the mapped columns plus the `paciente`
relationship.  `paciente_id` is commented out and absent. -/
def medicionesColumns : List String :=
  ["id", "paciente_identificador", "sensor", "heart_rate", "spo2",
   "temperature", "finger_detected", "timestamp", "paciente"]

/-- Python attribute lookup on the mapped class: referencing a name the class
does not define raises `AttributeError` before any query executes. -/
def columnRef (cols : List String) (name : String) : Except String Unit :=
  if name ∈ cols then .ok () else .error ("AttributeError: " ++ name)

/-- src/database.py `get_mediciones_por_paciente`: builds the filter
expression `DBMedicionesData.paciente_id == paciente_id`.  The attribute
lookup raises, so the query body (filter, order, limit — modelled as the
empty result it can never produce) is never reached. -/
def get_mediciones_por_paciente (db : QueryDB) (paciente_id : Int)
    (limit : Nat) : Except String (List Medicion) :=
  match columnRef medicionesColumns "paciente_id" with
  | .error e => .error e
  | .ok _ => .ok (List.take limit db.mediciones)

/-- The per-patient stats dict built inside `listar_pacientes` (data.py lines
112..124): its first count already evaluates
`DBMedicionesData.paciente_id`, which raises before any count is taken. -/
def paciente_stats (db : QueryDB) (p : Paciente) : Except String Nat :=
  match columnRef medicionesColumns "paciente_id" with
  | .error e => .error e
  | .ok _ => .ok (List.length db.mediciones)

/-- The measurement query of the medical-report endpoint
`obtener_resumen_medico_paciente` (data.py lines 591..595), which also
filters on `DBMedicionesData.paciente_id`. -/
def resumen_medico_mediciones (db : QueryDB) (paciente_id : Int)
    (start_date : Int) : Except String (List Medicion) :=
  match columnRef medicionesColumns "paciente_id" with
  | .error e => .error e
  | .ok _ => .ok db.mediciones

/-! ## Connection manager (src/mqtt/client.py `start_mqtt_client`) -/

/-- The `while retry_count < max_retries` loop of `start_mqtt_client`.
`connectOk k` is the outcome of the k-th `client.connect` call (1-based).
Returns (result, number of attempts made, the list of back-off waits
performed, each `5 * retry_count` seconds).  `fuel` bounds the loop; with
`fuel = max_retries - retry_count` the 0-fuel branch is unreachable. -/
def start_mqtt_go (connectOk : Nat → Bool) (max_retries : Nat) :
    Nat → Nat → Bool × Nat × List Nat
  | rc, 0 => (false, rc, [])
  | rc, fuel + 1 =>
      if rc < max_retries then
        if connectOk (rc + 1) then (true, rc + 1, [])
        else
          if rc + 1 < max_retries then
            let r := start_mqtt_go connectOk max_retries (rc + 1) fuel
            (r.1, r.2.1, 5 * (rc + 1) :: r.2.2)
          else (false, rc + 1, [])
      else (false, rc, [])

/-- src/mqtt/client.py `start_mqtt_client`: up to `max_retries = 5` connect
attempts; on success return `True`; after a failed attempt number `k < 5`
sleep `5 * k` seconds and retry; after the 5th failure return `False`. -/
def start_mqtt_client (connectOk : Nat → Bool) : Bool × Nat × List Nat :=
  start_mqtt_go connectOk 5 0 5

/-- A trivial environment, used where the external facilities are not
exercised. -/
def envTriv : Env :=
  { parseIso := fun _ => none
    now := 0
    isoOfNow := "NOW"
    jsonParse := fun _ => none
    jsonDumps := fun _ => ""
    identificador := none }

/-- A concrete JSON-object payload: a parseable ISO timestamp and a heart
rate. -/
def fields0 : Dict :=
  [("timestamp", Value.vStr "2024-01-01T00:00:00"),
   ("heart_rate", Value.vInt 80)]

/-- A concrete environment: ingestion time 999 (serialised "NOW"), the
payload string "PAYLOAD" decoding to `fields0`, and a successful identifier
lookup. -/
def envW : Env :=
  { parseIso := fun s =>
      if s = "NOW" then some 999
      else if s = "2024-01-01T00:00:00" then some 100 else none
    now := 999
    isoOfNow := "NOW"
    jsonParse := fun s => if s = "PAYLOAD" then some (Json.obj fields0)
      else none
    jsonDumps := fun _ => "DUMPED"
    identificador := some "PAC-1" }

/-- `envW` with a failed identifier lookup. -/
def envW2 : Env :=
  { envW with identificador := none }

/-- One patient and three measurements with distinct timestamps, the
concrete store for the pagination instance. -/
def db3 : QueryDB :=
  { pacientes := [⟨1, "A", "Ana"⟩]
    mediciones :=
      [⟨1, some "A", none, some 80, some 95, some 36, some true, 3⟩,
       ⟨2, some "A", none, some 81, some 96, some 37, some true, 2⟩,
       ⟨3, some "A", none, some 82, some 97, some 38, some true, 1⟩] }

/-- The empty filter set. -/
def filtersNone : MedFilters := ⟨none, none, none, none, none⟩

/-! ## Dict lemmas -/

theorem Dict.find?_insert_self (d : Dict) (k : String) (v : Value) :
    (d.insert k v).find? k = some v := by
  induction d with
  | nil => simp [Dict.insert, Dict.find?]
  | cons a d ih =>
      obtain ⟨k', v'⟩ := a
      by_cases h : k' = k
      · simp [Dict.insert, Dict.find?, h]
      · simp [Dict.insert, Dict.find?, h, ih]

theorem Dict.find?_insert_ne (d : Dict) (k k' : String) (v : Value)
    (h : k' ≠ k) : (d.insert k v).find? k' = d.find? k' := by
  have hkk : k ≠ k' := fun hh => h hh.symm
  induction d with
  | nil => simp [Dict.insert, Dict.find?, hkk]
  | cons a d ih =>
      obtain ⟨ka, va⟩ := a
      by_cases hk : ka = k
      · subst hk
        simp only [Dict.insert, if_pos rfl, Dict.find?]
        rw [if_neg hkk, if_neg hkk]
      · simp only [Dict.insert, if_neg hk, Dict.find?]
        by_cases hk' : ka = k'
        · rw [if_pos hk', if_pos hk']
        · rw [if_neg hk', if_neg hk', ih]

theorem Dict.contains_of_find? (d : Dict) (k : String) (v : Value)
    (h : d.find? k = some v) : d.contains k = true := by
  simp [Dict.contains, h]

/-! ## Claim C5 -/

/-- C5 counterexample: the claim says `parse_timestamp` always yields a
mapping whose `timestamp` value is a datetime, with repair whenever the field
is unparsable.  But on input `[("timestamp", 7)]` (the key present with a
non-string, non-datetime value) the `isinstance` guard skips both the parse
and the repair: the dict is returned unchanged, its `timestamp` still the
integer `7`, not a datetime. -/
theorem c5_counterexample :
    parse_timestamp (fun _ => none) 0 [("timestamp", Value.vInt 7)]
        = [("timestamp", Value.vInt 7)] ∧
    Value.isDatetime (Value.vInt 7) = false := by
  exact ⟨rfl, rfl⟩

/-- C5 (amended): `parse_timestamp` is total (never raises) and its result
always has a `timestamp` key; when the key was absent it is set to the
current UTC time; when the value was a string it is replaced by its parsed
datetime, with the current UTC time on parse failure; but a present
non-string value is passed through unchanged — the result's `timestamp` is a
datetime only in the first two cases. -/
theorem c5_repair (parseIso : String → Option Int) (now : Int)
    (payload : Dict) :
    Dict.contains (parse_timestamp parseIso now payload) "timestamp" = true ∧
    (payload.find? "timestamp" = none →
      (parse_timestamp parseIso now payload).find? "timestamp"
        = some (Value.vDT now)) ∧
    (∀ s, payload.find? "timestamp" = some (Value.vStr s) →
      (parse_timestamp parseIso now payload).find? "timestamp"
        = some (Value.vDT ((parseIso s).getD now))) ∧
    (∀ v, payload.find? "timestamp" = some v → (∀ s, v ≠ Value.vStr s) →
      parse_timestamp parseIso now payload = payload) := by
  refine ⟨?_, ?_, ?_, ?_⟩
  · rcases hf : payload.find? "timestamp" with _ | v
    · simp only [parse_timestamp, hf]
      exact Dict.contains_of_find? _ _ _ (Dict.find?_insert_self _ _ _)
    · cases v with
      | vStr s =>
          rcases hp : parseIso s with _ | t
          · simp only [parse_timestamp, hf, hp]
            exact Dict.contains_of_find? _ _ _ (Dict.find?_insert_self _ _ _)
          · simp only [parse_timestamp, hf, hp]
            exact Dict.contains_of_find? _ _ _ (Dict.find?_insert_self _ _ _)
      | vNone =>
          simp only [parse_timestamp, hf]
          exact Dict.contains_of_find? _ _ _ hf
      | vInt n =>
          simp only [parse_timestamp, hf]
          exact Dict.contains_of_find? _ _ _ hf
      | vRat q =>
          simp only [parse_timestamp, hf]
          exact Dict.contains_of_find? _ _ _ hf
      | vBool b =>
          simp only [parse_timestamp, hf]
          exact Dict.contains_of_find? _ _ _ hf
      | vDT t =>
          simp only [parse_timestamp, hf]
          exact Dict.contains_of_find? _ _ _ hf
  · intro hnone
    simp only [parse_timestamp, hnone]
    exact Dict.find?_insert_self _ _ _
  · intro s hs
    simp only [parse_timestamp, hs]
    rcases hp : parseIso s with _ | t
    · simpa [hp] using Dict.find?_insert_self payload "timestamp" (Value.vDT now)
    · simpa [hp] using Dict.find?_insert_self payload "timestamp" (Value.vDT t)
  · intro v hv hne
    cases v with
    | vStr s => exact absurd rfl (hne s)
    | vNone => simp only [parse_timestamp, hv]
    | vInt n => simp only [parse_timestamp, hv]
    | vRat q => simp only [parse_timestamp, hv]
    | vBool b => simp only [parse_timestamp, hv]
    | vDT t => simp only [parse_timestamp, hv]

/-- Concrete instance of `c5_repair`: on an empty payload the current time is
inserted as the timestamp. -/
theorem c5_repair_witness :
    (parse_timestamp (fun _ => some 42) 7 []).find? "timestamp"
      = some (Value.vDT 7) :=
  (c5_repair (fun _ => some 42) 7 []).2.1 rfl

/-! ## Claim C3 -/


/-- C3 evidence: on well-formed measurement data, `save_mediciones_data`
raises (`ValueError("Lo logro senior")`, placed after `db.commit()` and
before the now-unreachable `return db_data`) and yet the Measurement row is
persisted — the claimed raise-implies-rollback atomicity fails on every
successful insert. -/
theorem c3_commit_then_raise :
    save_mediciones_data envTriv ⟨[], []⟩
        [("paciente_identificador", Value.vStr "PAC-1"),
         ("heart_rate", Value.vInt 500), ("timestamp", Value.vDT 1234)]
      = (⟨[{ paciente_identificador := Value.vStr "PAC-1"
             sensor := Value.vNone
             heart_rate := Value.vInt 500
             spo2 := Value.vNone
             temperature := Value.vNone
             finger_detected := Value.vBool false
             timestamp := Value.vDT 1234 }], []⟩,
         Except.error "Lo logro senior") := by
  rfl

/-! ## Claim C6 -/

/-- C6: on read, a vital exactly at a validity boundary (heart_rate 30 or
250, spo2 70 or 100, temperature 30 or 45) is returned as valid, one unit
beyond either boundary becomes `None`; `listar_mediciones` returns exactly
these validated values; and at write time `save_mediciones_data` stores any
heart-rate value unchanged — no range check rejects the write. -/
theorem c6_boundary_validation :
    validated_hr (some 30) = some 30 ∧ validated_hr (some 250) = some 250 ∧
    validated_hr (some 29) = none ∧ validated_hr (some 251) = none ∧
    validated_spo2 (some 70) = some 70 ∧
    validated_spo2 (some 100) = some 100 ∧
    validated_spo2 (some 69) = none ∧ validated_spo2 (some 101) = none ∧
    validated_temp (some 30) = some 30 ∧
    validated_temp (some 45) = some 45 ∧
    validated_temp (some 29) = none ∧ validated_temp (some 46) = none ∧
    (∀ ps m, (projectMed ps m).heart_rate = validated_hr m.heart_rate ∧
      (projectMed ps m).spo2 = validated_spo2 m.spo2 ∧
      (projectMed ps m).temperature = validated_temp m.temperature) ∧
    (∀ env st pid ts v,
      (save_mediciones_data env st
          [("paciente_identificador", Value.vStr pid),
           ("heart_rate", Value.vInt v),
           ("timestamp", Value.vDT ts)]).1.mediciones
        = st.mediciones ++
          [{ paciente_identificador := Value.vStr pid
             sensor := Value.vNone
             heart_rate := Value.vInt v
             spo2 := Value.vNone
             temperature := Value.vNone
             finger_detected := Value.vBool false
             timestamp := Value.vDT ts }]) := by
  refine ⟨by decide, by decide, by decide, by decide, by decide, by decide,
    by decide, by decide, by decide, by decide, by decide, by decide,
    ?_, ?_⟩
  · intro ps m
    exact ⟨rfl, rfl, rfl⟩
  · intro env st pid ts v
    rfl

/-! ## Claim C9 -/

/-- C9: every measurement read that filters on the numeric `paciente_id`
fails with `AttributeError` on every input — `DBMedicionesData` defines
`paciente_identificador` but no `paciente_id` attribute — so
`get_mediciones_por_paciente`, the per-patient stats lookups of
`listar_pacientes`, and the report endpoint's measurement query can never
return a row set. -/
theorem c9_paciente_id_attribute_error :
    (∀ db paciente_id limit,
      get_mediciones_por_paciente db paciente_id limit
        = .error "AttributeError: paciente_id") ∧
    (∀ db p, paciente_stats db p = .error "AttributeError: paciente_id") ∧
    (∀ db paciente_id start_date,
      resumen_medico_mediciones db paciente_id start_date
        = .error "AttributeError: paciente_id") := by
  have hcol : columnRef medicionesColumns "paciente_id"
      = .error "AttributeError: paciente_id" := by
    rfl
  refine ⟨?_, ?_, ?_⟩
  · intro db paciente_id limit
    simp [get_mediciones_por_paciente, hcol]
  · intro db p
    simp [paciente_stats, hcol]
  · intro db paciente_id start_date
    simp [resumen_medico_mediciones, hcol]

/-! ## on_message helper lemmas -/

theorem save_raw_on_message_data (env : Env) (st : Store) (topic : String)
    (pv : Value) (hpi : env.parseIso env.isoOfNow = some env.now) :
    save_raw_mqtt_data env st
        [("topic", Value.vStr topic),
         ("paciente_id", idValue env.identificador),
         ("payload", pv), ("timestamp", Value.vStr env.isoOfNow)]
      = { st with raw := st.raw ++
          [⟨Value.vStr topic, pv, Value.vDT env.now⟩] } := by
  simp [save_raw_mqtt_data, Dict.find?, hpi]

theorem save_mediciones_raw_unchanged (env : Env) (st : Store) (d : Dict) :
    (save_mediciones_data env st d).1.raw = st.raw := by
  unfold save_mediciones_data
  repeat' split
  all_goals rfl

theorem save_mediciones_med_effect (env : Env) (st : Store) (d : Dict) :
    (save_mediciones_data env st d).1.mediciones = st.mediciones ∨
    ∃ m, (save_mediciones_data env st d).1.mediciones
          = st.mediciones ++ [m] := by
  unfold save_mediciones_data
  repeat' split
  all_goals first
    | exact Or.inl rfl
    | exact Or.inr ⟨_, rfl⟩

theorem save_mediciones_on_datos (env : Env) (st : Store) (fields : Dict)
    (pid : String) (hpi : env.parseIso env.isoOfNow = some env.now) :
    save_mediciones_data env st
        ((fields.insert "paciente_identificador" (Value.vStr pid)).insert
          "timestamp" (Value.vStr env.isoOfNow))
      = ({ st with mediciones := st.mediciones ++
            [{ paciente_identificador := Value.vStr pid
               sensor := Dict.getD fields "sensor" Value.vNone
               heart_rate := Dict.getD fields "heart_rate" Value.vNone
               spo2 := Dict.getD fields "spo2" Value.vNone
               temperature := Dict.getD fields "temperature" Value.vNone
               finger_detected :=
                 Dict.getD fields "finger_detected" (Value.vBool false)
               timestamp := Value.vDT env.now }] },
         Except.error "Lo logro senior") := by
  have hts : ((fields.insert "paciente_identificador"
      (Value.vStr pid)).insert "timestamp"
        (Value.vStr env.isoOfNow)).find? "timestamp"
      = some (Value.vStr env.isoOfNow) :=
    Dict.find?_insert_self _ _ _
  have hpid : ((fields.insert "paciente_identificador"
      (Value.vStr pid)).insert "timestamp"
        (Value.vStr env.isoOfNow)).find? "paciente_identificador"
      = some (Value.vStr pid) := by
    rw [Dict.find?_insert_ne _ _ _ _ (by decide)]
    exact Dict.find?_insert_self _ _ _
  have hother : ∀ k, k ≠ "timestamp" → k ≠ "paciente_identificador" →
      ((fields.insert "paciente_identificador"
        (Value.vStr pid)).insert "timestamp"
          (Value.vStr env.isoOfNow)).find? k = fields.find? k := by
    intro k h1 h2
    rw [Dict.find?_insert_ne _ _ _ _ h1, Dict.find?_insert_ne _ _ _ _ h2]
  unfold save_mediciones_data
  rw [if_neg (by simp [Dict.contains, hpid])]
  rw [hts]
  simp only [hpi, Option.map_some']
  simp only [Dict.getD, hpid, hts,
    hother "sensor" (by decide) (by decide),
    hother "heart_rate" (by decide) (by decide),
    hother "spo2" (by decide) (by decide),
    hother "temperature" (by decide) (by decide),
    hother "finger_detected" (by decide) (by decide),
    Option.getD_some]

/-! ## Claims C1, C2, C4, C10 -/

/-- C1: every inbound message — any topic, JSON or not — leads to exactly one
RawMessage insert, and the typed path only ever adds a Measurement row on top
of it (never instead of it).  The hypothesis is the standard-library fact
that `utcnow().isoformat()` parses back with `fromisoformat`. -/
theorem c1_one_raw_insert (env : Env) (st : Store) (topic rawPayload : String)
    (hpi : env.parseIso env.isoOfNow = some env.now) :
    ∃ r : RawRow, (on_message env st topic rawPayload).raw = st.raw ++ [r] ∧
      ((on_message env st topic rawPayload).mediciones = st.mediciones ∨
       ∃ m : MedRow, (on_message env st topic rawPayload).mediciones
          = st.mediciones ++ [m]) := by
  rcases hj : env.jsonParse rawPayload with _ | j
  · simp only [on_message, hj]
    rw [save_raw_on_message_data env st topic (Value.vStr rawPayload) hpi]
    exact ⟨_, rfl, Or.inl rfl⟩
  · simp only [on_message, hj]
    rw [save_raw_on_message_data env st topic
      (Value.vStr (env.jsonDumps j)) hpi]
    by_cases ht : topic = "esp32/mediciones"
    · rw [if_pos ht]
      by_cases hid : truthyId env.identificador
      · rw [if_pos hid]
        cases j with
        | obj fields =>
            simp only []
            refine ⟨⟨Value.vStr topic,
              Value.vStr (env.jsonDumps (Json.obj fields)),
              Value.vDT env.now⟩, ?_, ?_⟩
            · rw [save_mediciones_raw_unchanged]
            · rcases save_mediciones_med_effect env
                { st with raw := st.raw ++ [⟨Value.vStr topic,
                    Value.vStr (env.jsonDumps (Json.obj fields)),
                    Value.vDT env.now⟩] }
                ((Dict.insert fields "paciente_identificador"
                    (idValue env.identificador)).insert "timestamp"
                  (Value.vStr env.isoOfNow)) with h | ⟨m, h⟩
              · exact Or.inl h
              · exact Or.inr ⟨m, h⟩
        | nonObj s => exact ⟨_, rfl, Or.inl rfl⟩
      · rw [if_neg hid]
        exact ⟨_, rfl, Or.inl rfl⟩
    · rw [if_neg ht]
      exact ⟨_, rfl, Or.inl rfl⟩

/-- C4: a payload that fails JSON decoding is stored verbatim as the
RawMessage payload, and no typed row is created (the store update touches
only the raw table). -/
theorem c4_text_fallback (env : Env) (st : Store) (topic rawPayload : String)
    (hnj : env.jsonParse rawPayload = none)
    (hpi : env.parseIso env.isoOfNow = some env.now) :
    on_message env st topic rawPayload
      = { st with raw := st.raw ++
          [⟨Value.vStr topic, Value.vStr rawPayload, Value.vDT env.now⟩] } := by
  simp only [on_message, hnj]
  exact save_raw_on_message_data env st topic (Value.vStr rawPayload) hpi

/-- C10: a valid JSON message on `esp32/mediciones` whose external
patient-identifier lookup yields nothing truthy (`None` or `""`) still gets
its RawMessage row, but no Measurement row is created and no error is raised
(the handler just returns). -/
theorem c10_identifier_missing (env : Env) (st : Store) (rawPayload : String)
    (j : Json) (hj : env.jsonParse rawPayload = some j)
    (hid : truthyId env.identificador = false)
    (hpi : env.parseIso env.isoOfNow = some env.now) :
    on_message env st "esp32/mediciones" rawPayload
      = { st with raw := st.raw ++
          [⟨Value.vStr "esp32/mediciones", Value.vStr (env.jsonDumps j),
            Value.vDT env.now⟩] } := by
  simp only [on_message, hj]
  rw [save_raw_on_message_data env st "esp32/mediciones"
    (Value.vStr (env.jsonDumps j)) hpi]
  rw [if_pos trivial, hid]
  simp

/-- C2 (amended): for a valid JSON object payload on `esp32/mediciones` with
a truthy identifier, exactly one Measurement row and one RawMessage row are
created, and the Measurement's sensor/heart_rate/spo2/temperature/
finger_detected equal the decoded payload's — but its stored timestamp is
always the ingestion time `utcnow()`, because `on_message` overwrites the
payload's `timestamp` before saving; the payload's own timestamp is never
stored, parseable or not.  (The row is persisted even though
`save_mediciones_data` raises after committing.) -/
theorem c2_typed_row (env : Env) (st : Store) (rawPayload : String)
    (fields : Dict) (pid : String)
    (hj : env.jsonParse rawPayload = some (Json.obj fields))
    (hid : env.identificador = some pid) (hpid : pid ≠ "")
    (hpi : env.parseIso env.isoOfNow = some env.now) :
    on_message env st "esp32/mediciones" rawPayload
      = { mediciones := st.mediciones ++
            [{ paciente_identificador := Value.vStr pid
               sensor := Dict.getD fields "sensor" Value.vNone
               heart_rate := Dict.getD fields "heart_rate" Value.vNone
               spo2 := Dict.getD fields "spo2" Value.vNone
               temperature := Dict.getD fields "temperature" Value.vNone
               finger_detected :=
                 Dict.getD fields "finger_detected" (Value.vBool false)
               timestamp := Value.vDT env.now }]
          raw := st.raw ++
            [⟨Value.vStr "esp32/mediciones",
              Value.vStr (env.jsonDumps (Json.obj fields)),
              Value.vDT env.now⟩] } := by
  have htr : truthyId env.identificador = true := by
    rw [hid]; simp [truthyId, hpid]
  simp only [on_message, hj]
  rw [save_raw_on_message_data env st "esp32/mediciones"
    (Value.vStr (env.jsonDumps (Json.obj fields))) hpi]
  rw [if_pos trivial, if_pos htr]
  rw [hid]
  simp only [idValue]
  rw [congrArg Prod.fst (save_mediciones_on_datos env _ fields pid hpi)]




/-- Concrete instance of `c1_one_raw_insert`: an unknown topic with a
non-JSON payload still produces exactly one raw row. -/
theorem c1_one_raw_insert_witness :
    (on_message envW ⟨[], []⟩ "misc" "xyz").raw.length = 1 := by
  obtain ⟨r, hr, -⟩ := c1_one_raw_insert envW ⟨[], []⟩ "misc" "xyz" rfl
  rw [hr]
  rfl

/-- Concrete instance of `c4_text_fallback`: "not json" is stored verbatim
and the measurement table stays empty. -/
theorem c4_text_fallback_witness :
    on_message envW ⟨[], []⟩ "esp32/otros" "not json"
      = { mediciones := []
          raw := [⟨Value.vStr "esp32/otros", Value.vStr "not json",
                   Value.vDT 999⟩] } :=
  c4_text_fallback envW ⟨[], []⟩ "esp32/otros" "not json" rfl rfl

/-- Concrete instance of `c10_identifier_missing`: lookup failure keeps the
raw row and drops the typed row. -/
theorem c10_identifier_missing_witness :
    on_message envW2 ⟨[], []⟩ "esp32/mediciones" "PAYLOAD"
      = { mediciones := []
          raw := [⟨Value.vStr "esp32/mediciones", Value.vStr "DUMPED",
                   Value.vDT 999⟩] } :=
  c10_identifier_missing envW2 ⟨[], []⟩ "PAYLOAD" (Json.obj fields0)
    rfl rfl rfl

/-- Concrete instance of `c2_typed_row`: the decoded heart rate is stored,
the stored timestamp is the ingestion time 999. -/
theorem c2_typed_row_witness :
    on_message envW ⟨[], []⟩ "esp32/mediciones" "PAYLOAD"
      = { mediciones := [{ paciente_identificador := Value.vStr "PAC-1"
                           sensor := Value.vNone
                           heart_rate := Value.vInt 80
                           spo2 := Value.vNone
                           temperature := Value.vNone
                           finger_detected := Value.vBool false
                           timestamp := Value.vDT 999 }]
          raw := [⟨Value.vStr "esp32/mediciones", Value.vStr "DUMPED",
                   Value.vDT 999⟩] } := by
  have h := c2_typed_row envW ⟨[], []⟩ "PAYLOAD" fields0 "PAC-1" rfl rfl
    (by decide) rfl
  exact h.trans (by rfl)

/-- C2 counterexample: the payload carries the parseable ISO-8601 timestamp
"2024-01-01T00:00:00" (datetime 100), yet the persisted Measurement row's
timestamp is the ingestion time 999 — the stored timestamp does not equal
the payload's timestamp, refuting the claim that repair is applied only when
the timestamp is absent or unparsable. -/
theorem c2_timestamp_overwritten :
    ((on_message envW ⟨[], []⟩ "esp32/mediciones" "PAYLOAD").mediciones.map
        MedRow.timestamp) = [Value.vDT 999] ∧
    Dict.find? fields0 "timestamp"
      = some (Value.vStr "2024-01-01T00:00:00") ∧
    envW.parseIso "2024-01-01T00:00:00" = some 100 ∧
    Value.vDT 999 ≠ Value.vDT 100 := by
  refine ⟨rfl, rfl, rfl, by decide⟩

/-! ## Claim C8 -/

theorem start_eval (f : Nat → Bool) :
    start_mqtt_client f =
      if f 1 then (true, 1, [])
      else if f 2 then (true, 2, [5])
      else if f 3 then (true, 3, [5, 10])
      else if f 4 then (true, 4, [5, 10, 15])
      else if f 5 then (true, 5, [5, 10, 15, 20])
      else (false, 5, [5, 10, 15, 20]) := by
  by_cases h1 : f 1 <;> by_cases h2 : f 2 <;> by_cases h3 : f 3 <;>
    by_cases h4 : f 4 <;> by_cases h5 : f 5 <;>
    simp [start_mqtt_client, start_mqtt_go, h1, h2, h3, h4, h5]

/-- C8: `start_mqtt_client` makes at most 5 connect attempts; if the first
j-1 attempts fail and the j-th succeeds (j ≤ 5), it returns `True` after j
attempts having waited `5*1, ..., 5*(j-1)` seconds between attempts (5s × k
after the k-th failure); if all 5 attempts fail it returns `False` after the
waits `[5, 10, 15, 20]` — it never retries past the bound. -/
theorem c8_bounded_linear_retry (f : Nat → Bool) :
    (start_mqtt_client f).2.1 ≤ 5 ∧
    (∀ j, j ≤ 5 → 1 ≤ j → (∀ k, k < j → 1 ≤ k → f k = false) →
      f j = true →
      start_mqtt_client f
        = (true, j, (List.range (j - 1)).map (fun i => 5 * (i + 1)))) ∧
    ((∀ k, k < 6 → 1 ≤ k → f k = false) →
      start_mqtt_client f = (false, 5, [5, 10, 15, 20])) := by
  refine ⟨?_, ?_, ?_⟩
  · rw [start_eval]
    split_ifs <;> decide
  · intro j hj5 hj1 hprev hj
    interval_cases j
    · rw [start_eval, if_pos hj]
      decide
    · have k1 : f 1 = false := hprev 1 (by omega) (by omega)
      rw [start_eval, k1, if_neg (by simp), if_pos hj]
      decide
    · have k1 : f 1 = false := hprev 1 (by omega) (by omega)
      have k2 : f 2 = false := hprev 2 (by omega) (by omega)
      rw [start_eval, k1, k2, if_neg (by simp), if_neg (by simp), if_pos hj]
      decide
    · have k1 : f 1 = false := hprev 1 (by omega) (by omega)
      have k2 : f 2 = false := hprev 2 (by omega) (by omega)
      have k3 : f 3 = false := hprev 3 (by omega) (by omega)
      rw [start_eval, k1, k2, k3, if_neg (by simp), if_neg (by simp),
        if_neg (by simp), if_pos hj]
      decide
    · have k1 : f 1 = false := hprev 1 (by omega) (by omega)
      have k2 : f 2 = false := hprev 2 (by omega) (by omega)
      have k3 : f 3 = false := hprev 3 (by omega) (by omega)
      have k4 : f 4 = false := hprev 4 (by omega) (by omega)
      rw [start_eval, k1, k2, k3, k4, if_neg (by simp), if_neg (by simp),
        if_neg (by simp), if_neg (by simp), if_pos hj]
      decide
  · intro hall
    have k1 : f 1 = false := hall 1 (by omega) (by omega)
    have k2 : f 2 = false := hall 2 (by omega) (by omega)
    have k3 : f 3 = false := hall 3 (by omega) (by omega)
    have k4 : f 4 = false := hall 4 (by omega) (by omega)
    have k5 : f 5 = false := hall 5 (by omega) (by omega)
    rw [start_eval, k1, k2, k3, k4, k5]
    simp

/-- Concrete instance of `c8_bounded_linear_retry`: with the first two
attempts failing and the third succeeding, the client returns success after
3 attempts and waits of 5 then 10 seconds. -/
theorem c8_bounded_linear_retry_witness :
    start_mqtt_client (fun k => k == 3) = (true, 3, [5, 10]) := by
  have h := (c8_bounded_linear_retry (fun k => k == 3)).2.1 3 (by omega)
    (by omega) (by decide) (by decide)
  exact h.trans (by decide)

/-! ## Claim C7 -/

/-- C7: for a fixed filter set, querying `(skip = k, limit = n)` and then
`(skip = k + n, limit = n)` yields two full pages that concatenate to the
contiguous window of length 2n at offset k of the descending-timestamp
result sequence — no gap — and share no element — no overlap — whenever the
filtered rows have pairwise-distinct timestamps and number at least
k + 2n. -/
theorem c7_pagination (db : QueryDB) (f : MedFilters) (k n : Nat)
    (hdist : (List.filter (medMatches db.pacientes f) db.mediciones).Pairwise
      (fun a b => a.timestamp ≠ b.timestamp))
    (hlen : k + 2 * n
      ≤ (List.filter (medMatches db.pacientes f) db.mediciones).length) :
    (listar_mediciones db k n f).length = n ∧
    (listar_mediciones db (k + n) n f).length = n ∧
    listar_mediciones db k n f ++ listar_mediciones db (k + n) n f
      = List.take (2 * n) (List.drop k
          (List.map (projectMed db.pacientes) (medQueryRows db f))) ∧
    ∀ x ∈ listar_mediciones db k n f,
      x ∉ listar_mediciones db (k + n) n f := by
  have hperm : List.Perm (medQueryRows db f)
      (List.filter (medMatches db.pacientes f) db.mediciones) :=
    List.perm_insertionSort tsDesc _
  have hlistar : ∀ a b, listar_mediciones db a b f
      = List.take b (List.drop a
          (List.map (projectMed db.pacientes) (medQueryRows db f))) := by
    intro a b
    unfold listar_mediciones
    rw [List.map_take, List.map_drop]
  have hLlen : (List.map (projectMed db.pacientes)
      (medQueryRows db f)).length
      = (List.filter (medMatches db.pacientes f) db.mediciones).length := by
    rw [List.length_map]
    exact hperm.length_eq
  have hcontig : listar_mediciones db k n f ++ listar_mediciones db (k + n) n f
      = List.take (2 * n) (List.drop k
          (List.map (projectMed db.pacientes) (medQueryRows db f))) := by
    rw [hlistar, hlistar]
    rw [show List.drop (k + n) (List.map (projectMed db.pacientes)
        (medQueryRows db f))
      = List.drop n (List.drop k (List.map (projectMed db.pacientes)
          (medQueryRows db f))) by rw [List.drop_drop, Nat.add_comm]]
    rw [two_mul]
    exact (List.take_add _ n n).symm
  have hsymm : Symmetric
      (fun a b : Medicion => a.timestamp ≠ b.timestamp) :=
    fun _ _ h e => h e.symm
  have hpairS : (medQueryRows db f).Pairwise
      (fun a b => a.timestamp ≠ b.timestamp) :=
    (List.Perm.pairwise_iff (fun hab => hsymm hab) hperm).mpr hdist
  have hpairL : (List.map (projectMed db.pacientes)
      (medQueryRows db f)).Pairwise
      (fun a b : MedOut => a.timestamp ≠ b.timestamp) :=
    List.pairwise_map.mpr hpairS
  have hW : (List.take (2 * n) (List.drop k
      (List.map (projectMed db.pacientes) (medQueryRows db f)))).Pairwise
      (fun a b : MedOut => a.timestamp ≠ b.timestamp) :=
    List.Pairwise.sublist
      ((List.take_sublist _ _).trans (List.drop_sublist _ _)) hpairL
  refine ⟨?_, ?_, hcontig, ?_⟩
  · rw [hlistar, List.length_take, List.length_drop, hLlen]
    omega
  · rw [hlistar, List.length_take, List.length_drop, hLlen]
    omega
  · intro x hx hx'
    rw [← hcontig] at hW
    rcases List.pairwise_append.mp hW with ⟨-, -, hcross⟩
    exact hcross x hx x hx' rfl



/-- Concrete instance of `c7_pagination`: two successive single-row pages
over three stored rows are both full. -/
theorem c7_pagination_witness :
    (listar_mediciones db3 1 1 filtersNone).length = 1 ∧
    (listar_mediciones db3 (1 + 1) 1 filtersNone).length = 1 :=
  ⟨(c7_pagination db3 filtersNone 1 1 (by decide) (by decide)).1,
   (c7_pagination db3 filtersNone 1 1 (by decide) (by decide)).2.1⟩
